import Mathlib

/-!
# Verification of the MCP OAuth token-verification core (`src/lib/auth.ts`)

This file gives a shallow embedding, in Lean 4, of the authentication core of
the repository: the auxiliary validators (`validateResourceParameter`,
`validateTokenAudience`, `verifyPKCE`) and the token-verification engine
(`verifyGoogleToken`).  Pure TypeScript functions become Lean functions;
the external identity provider (Google) is modelled by an oracle recording
the outcome of each possible outbound call; exceptions are modelled by an
explicit outcome type.  Machine integers are `Nat` with explicit reductions
modulo `2 ^ 32` where the algorithms (SHA-256) need 32-bit wrap-around.

Platform primitives used by the source (`crypto.createHash("sha256")`,
WHATWG `URL`, `atob`, `JSON.parse`, the Fetch `Headers` lookup) are
modelled faithfully below, each in its own section.
-/

set_option autoImplicit false

namespace McpAuth

/-! ## 32-bit arithmetic helpers -/

/-- Reduce a natural number to a 32-bit word. -/
def w32 (n : Nat) : Nat := n % 4294967296

/-- Right rotation of a 32-bit word by `n` bits. -/
def rotr32 (n x : Nat) : Nat := x / 2 ^ n + x % 2 ^ n * 2 ^ (32 - n)

/-- Bitwise complement of a 32-bit word (assumes `x < 2 ^ 32`). -/
def not32 (x : Nat) : Nat := 4294967295 - x

/-! ## SHA-256 (FIPS 180-4), the digest used by `verifyPKCE`

`crypto.createHash("sha256").update(v).digest(...)` in Node hashes the
UTF-8 bytes of the string `v`.  Bytes are `Nat` values `< 256`, words are
`Nat` values `< 2 ^ 32`. -/

/-- The 64 round constants of SHA-256 (FIPS 180-4 §4.2.2, as decimal
32-bit values). -/
def sha256K : List Nat :=
  [1116352408, 1899447441, 3049323471, 3921009573, 961987163, 1508970993,
   2453635748, 2870763221, 3624381080, 310598401, 607225278, 1426881987,
   1925078388, 2162078206, 2614888103, 3248222580, 3835390401, 4022224774,
   264347078, 604807628, 770255983, 1249150122, 1555081692, 1996064986,
   2554220882, 2821834349, 2952996808, 3210313671, 3336571891, 3584528711,
   113926993, 338241895, 666307205, 773529912, 1294757372, 1396182291,
   1695183700, 1986661051, 2177026350, 2456956037, 2730485921, 2820302411,
   3259730800, 3345764771, 3516065817, 3600352804, 4094571909, 275423344,
   430227734, 506948616, 659060556, 883997877, 958139571, 1322822218,
   1537002063, 1747873779, 1955562222, 2024104815, 2227730452, 2361852424,
   2428436474, 2756734187, 3204031479, 3329325298]

/-- The initial hash state of SHA-256 (FIPS 180-4 §5.3.3). -/
def sha256H0 : List Nat :=
  [1779033703, 3144134277, 1013904242, 2773480762,
   1359893119, 2600822924, 528734635, 1541459225]

/-- Σ₀ of SHA-256. -/
def bigSigma0 (x : Nat) : Nat := rotr32 2 x ^^^ rotr32 13 x ^^^ rotr32 22 x

/-- Σ₁ of SHA-256. -/
def bigSigma1 (x : Nat) : Nat := rotr32 6 x ^^^ rotr32 11 x ^^^ rotr32 25 x

/-- σ₀ of SHA-256. -/
def smallSigma0 (x : Nat) : Nat := rotr32 7 x ^^^ rotr32 18 x ^^^ x / 8

/-- σ₁ of SHA-256. -/
def smallSigma1 (x : Nat) : Nat := rotr32 17 x ^^^ rotr32 19 x ^^^ x / 1024

/-- Big-endian byte decomposition of `n` into `k` bytes. -/
def beBytes : Nat → Nat → List Nat
  | 0, _ => []
  | k + 1, n => beBytes k (n / 256) ++ [n % 256]

/-- SHA-256 message padding: append `0x80`, zero bytes, and the 64-bit
big-endian bit length, reaching a multiple of 64 bytes. -/
def sha256Pad (msg : List Nat) : List Nat :=
  msg ++ 128 :: List.replicate ((119 - msg.length % 64) % 64) 0 ++ beBytes 8 (msg.length * 8)

/-- Split a byte list into 64-byte blocks (fuel-driven so that the kernel
can evaluate it; `l.length` steps always suffice). -/
def toBlocksFuel : Nat → List Nat → List (List Nat)
  | 0, _ => []
  | _, [] => []
  | fuel + 1, l => l.take 64 :: toBlocksFuel fuel (l.drop 64)

/-- Split a byte list into 64-byte blocks. -/
def toBlocks (l : List Nat) : List (List Nat) := toBlocksFuel l.length l

/-- Combine bytes into big-endian 32-bit words, four at a time. -/
def bytesToWords : List Nat → List Nat
  | a :: b :: c :: d :: rest => (((a * 256 + b) * 256 + c) * 256 + d) :: bytesToWords rest
  | _ => []

/-- One extension step of the SHA-256 message schedule. -/
def sha256ExtendStep (w : List Nat) : List Nat :=
  let i := w.length
  w ++ [w32 (smallSigma1 (w.getD (i - 2) 0) + w.getD (i - 7) 0 +
             smallSigma0 (w.getD (i - 15) 0) + w.getD (i - 16) 0)]

/-- Extend the 16 block words to the 64 schedule words. -/
def sha256Schedule (w16 : List Nat) : List Nat :=
  (List.range 48).foldl (fun w _ => sha256ExtendStep w) w16

/-- One SHA-256 round applied to the state `[a,b,c,d,e,f,g,h]`. -/
def sha256Round (st : List Nat) (kw : Nat × Nat) : List Nat :=
  match st with
  | [a, b, c, d, e, f, g, h] =>
    let t1 := w32 (h + bigSigma1 e + ((e &&& f) ^^^ (not32 e &&& g)) + kw.1 + kw.2)
    let t2 := w32 (bigSigma0 a + ((a &&& b) ^^^ (a &&& c) ^^^ (b &&& c)))
    [w32 (t1 + t2), a, b, c, w32 (d + t1), e, f, g]
  | st => st

/-- SHA-256 compression of one 64-byte block into the running state. -/
def sha256Compress (h : List Nat) (block : List Nat) : List Nat :=
  let w := sha256Schedule (bytesToWords block)
  let st := (sha256K.zip w).foldl sha256Round h
  (h.zip st).map (fun p => w32 (p.1 + p.2))

/-- SHA-256 of a byte list, as the 32-byte digest. -/
def sha256 (msg : List Nat) : List Nat :=
  ((toBlocks (sha256Pad msg)).foldl sha256Compress sha256H0).foldr
    (fun wd acc => beBytes 4 wd ++ acc) []

/-! ## base64url (no padding) and UTF-8: the encodings used by `verifyPKCE` -/

/-- The base64url alphabet character for a 6-bit value. -/
def b64urlChar (n : Nat) : Char :=
  if n < 26 then Char.ofNat (65 + n)
  else if n < 52 then Char.ofNat (97 + n - 26)
  else if n < 62 then Char.ofNat (48 + n - 52)
  else if n = 62 then Char.ofNat 45
  else Char.ofNat 95

/-- base64url encoding (RFC 4648 §5, no padding) of a byte list. -/
def b64urlChars : List Nat → List Char
  | a :: b :: c :: rest =>
      b64urlChar (a / 4) :: b64urlChar (a % 4 * 16 + b / 16) ::
      b64urlChar (b % 16 * 4 + c / 64) :: b64urlChar (c % 64) :: b64urlChars rest
  | [a, b] => [b64urlChar (a / 4), b64urlChar (a % 4 * 16 + b / 16), b64urlChar (b % 16 * 4)]
  | [a] => [b64urlChar (a / 4), b64urlChar (a % 4 * 16)]
  | [] => []

/-- base64url (no padding) of a byte list, as a string: the encoding produced
by Node's `digest("base64url")`. -/
def base64urlNoPad (bytes : List Nat) : String := String.mk (b64urlChars bytes)

/-- UTF-8 encoding of one Unicode scalar value. -/
def utf8EncodeCodepoint (c : Nat) : List Nat :=
  if c < 128 then [c]
  else if c < 2048 then [192 + c / 64, 128 + c % 64]
  else if c < 65536 then [224 + c / 4096, 128 + c / 64 % 64, 128 + c % 64]
  else [240 + c / 262144, 128 + c / 4096 % 64, 128 + c / 64 % 64, 128 + c % 64]

/-- UTF-8 bytes of a string: what Node's `hash.update(string)` hashes. -/
def utf8Encode (s : String) : List Nat :=
  s.data.foldr (fun c acc => utf8EncodeCodepoint c.toNat ++ acc) []

/-! ## `verifyPKCE` (source lines 47–57)

```ts
export function verifyPKCE(codeChallenge, codeVerifier) {
  const hash = crypto.createHash("sha256").update(codeVerifier).digest("base64url");
  return codeChallenge === hash;
}
``` -/

/-- Embedding of `verifyPKCE`. -/
def verifyPKCE (codeChallenge codeVerifier : String) : Bool :=
  codeChallenge == base64urlNoPad (sha256 (utf8Encode codeVerifier))

/-! ## WHATWG `URL`: the platform parser used by `validateResourceParameter`
and by `new URL(req.url).origin`

Simplified but behavior-faithful model of `new URL(input)` for absolute
URLs: scheme parsing, optional slashes, userinfo stripping, host and port
for the special schemes, and the origin serialization.  For non-special
schemes the parse succeeds with an *opaque* origin, which the standard
serializes as the literal string `"null"` — this detail is observable
through `URL.origin` and hence through `validateResourceParameter`.
IPv6 host bracket syntax and percent-decoding of hosts are omitted; no
claim or concrete input below depends on them. -/

/-- Parsed URL record: lowercased scheme, lowercased host, and port
(`none` when absent or equal to the scheme's default port, as WHATWG
normalizes default ports away). -/
structure URLRec where
  scheme : String
  host : String
  port : Option Nat
  deriving DecidableEq, Repr

/-- ASCII lowercasing of one character. -/
def asciiLower (c : Char) : Char :=
  if 65 ≤ c.toNat ∧ c.toNat ≤ 90 then Char.ofNat (c.toNat + 32) else c

/-- ASCII letter test. -/
def isAsciiAlpha (c : Char) : Bool :=
  decide ((65 ≤ c.toNat ∧ c.toNat ≤ 90) ∨ (97 ≤ c.toNat ∧ c.toNat ≤ 122))

/-- ASCII digit test. -/
def isAsciiDigit (c : Char) : Bool := decide (48 ≤ c.toNat ∧ c.toNat ≤ 57)

/-- Characters allowed after the first character of a URL scheme. -/
def isSchemeChar (c : Char) : Bool :=
  isAsciiAlpha c || isAsciiDigit c || c == '+' || c == '-' || c == '.'

/-- Split the input at the first `:`, validating the scheme characters
before it.  Returns `none` when there is no colon or a non-scheme
character precedes it. -/
def takeScheme : List Char → Option (List Char × List Char)
  | [] => none
  | c :: cs =>
    if c == ':' then some ([], cs)
    else if isSchemeChar c then (takeScheme cs).map (fun p => (c :: p.1, p.2))
    else none

/-- The special schemes with a tuple origin, and their default ports.
(`file` is also special in the standard but serializes its origin as
`"null"`, so it is handled with the non-special schemes here.) -/
def specialSchemes : List (String × Nat) :=
  [("http", 80), ("https", 443), ("ws", 80), ("wss", 443), ("ftp", 21)]

/-- Default port of a special scheme. -/
def defaultPort (s : String) : Option Nat :=
  (specialSchemes.find? (fun p => p.1 == s)).map (·.2)

/-- End of the authority component. -/
def isAuthorityEnd (c : Char) : Bool := c == '/' || c == '\\' || c == '?' || c == '#'

/-- The part of the authority after the last `@` (the host and port;
anything before the last `@` is userinfo). -/
def afterLastAt (cs : List Char) : List Char :=
  cs.foldl (fun acc c => if c == '@' then [] else acc ++ [c]) []

/-- Characters rejected inside a host. -/
def hostCharOk (c : Char) : Bool :=
  decide (32 < c.toNat) && !(c == '%' || c == '<' || c == '>' || c == '^' || c == '|' ||
    c == '[' || c == ']')

/-- Parse the port digits after `:`.  Empty means the default port; a
non-digit or a value above 65535 is a parse failure. -/
def parsePortDigits (cs : List Char) : Option (Option Nat) :=
  if cs = [] then some none
  else if cs.all isAsciiDigit then
    let n := cs.foldl (fun acc c => acc * 10 + (c.toNat - 48)) 0
    if n ≤ 65535 then some (some n) else none
  else none

/-- Model of `new URL(input)` for absolute inputs: `none` models the
constructor throwing `TypeError`. -/
def parseURL (s : String) : Option URLRec :=
  match takeScheme s.data with
  | none => none
  | some (schemeCs, rest) =>
    match schemeCs with
    | [] => none
    | c0 :: _ =>
      if !isAsciiAlpha c0 then none
      else
        let scheme := String.mk (schemeCs.map asciiLower)
        if (specialSchemes.find? (fun p => p.1 == scheme)).isSome then
          let rest1 := rest.dropWhile (fun c => c == '/' || c == '\\')
          let hp := afterLastAt (rest1.takeWhile (fun c => !isAuthorityEnd c))
          let hostCs := hp.takeWhile (fun c => c != ':')
          let portCs := (hp.dropWhile (fun c => c != ':')).drop 1
          if hostCs = [] then none
          else if !hostCs.all hostCharOk then none
          else
            match parsePortDigits portCs with
            | none => none
            | some p =>
              let p := if p = defaultPort scheme then none else p
              some ⟨scheme, String.mk (hostCs.map asciiLower), p⟩
        else some ⟨scheme, "", none⟩

/-- `URL.origin`: the serialized tuple origin for the special schemes and
the literal `"null"` for every other scheme (including `file`). -/
def URLRec.origin (u : URLRec) : String :=
  if (specialSchemes.find? (fun p => p.1 == u.scheme)).isSome then
    u.scheme ++ "://" ++ u.host ++
      (match u.port with
       | some p => ":" ++ toString p
       | none => "")
  else "null"

/-! ## `validateResourceParameter` (source lines 10–23)

```ts
export function validateResourceParameter(resource, serverBaseUrl) {
  try {
    const resourceUrl = new URL(resource);
    const serverUrl = new URL(serverBaseUrl);
    return resourceUrl.origin === serverUrl.origin;
  } catch { return false; }
}
``` -/

/-- Embedding of `validateResourceParameter`: a parse failure of either
argument is the thrown `TypeError`, caught and turned into `false`. -/
def validateResourceParameter (resource serverBaseUrl : String) : Bool :=
  match parseURL resource with
  | none => false
  | some resourceUrl =>
    match parseURL serverBaseUrl with
    | none => false
    | some serverUrl => resourceUrl.origin == serverUrl.origin

/-! ## `atob`: WHATWG forgiving-base64 decode

`atob` strips ASCII whitespace, removes up to two trailing `=` when the
length is a multiple of four, fails when the remaining length is `1 mod 4`
or any character is outside the standard base64 alphabet (note: *not* the
url-safe alphabet — `-` and `_` are rejected), and otherwise decodes,
discarding leftover bits.  `none` models the thrown `InvalidCharacterError`. -/

/-- ASCII whitespace stripped by forgiving-base64. -/
def isB64Ws (c : Char) : Bool :=
  c == ' ' || c.toNat == 9 || c.toNat == 10 || c.toNat == 12 || c.toNat == 13

/-- Value of one standard-base64 alphabet character. -/
def b64Val (c : Char) : Option Nat :=
  if 65 ≤ c.toNat ∧ c.toNat ≤ 90 then some (c.toNat - 65)
  else if 97 ≤ c.toNat ∧ c.toNat ≤ 122 then some (c.toNat - 97 + 26)
  else if 48 ≤ c.toNat ∧ c.toNat ≤ 57 then some (c.toNat - 48 + 52)
  else if c == '+' then some 62
  else if c == '/' then some 63
  else none

/-- Remove up to two trailing `=` characters. -/
def stripTrailingEq (cs : List Char) : List Char :=
  let r := cs.reverse
  let r := if r.headD ' ' == '=' then r.tail else r
  let r := if r.headD ' ' == '=' then r.tail else r
  r.reverse

/-- Reassemble 6-bit values into bytes, discarding leftover bits. -/
def b64Bytes : List Nat → List Nat
  | a :: b :: c :: d :: rest =>
      (a * 4 + b / 16) :: (b % 16 * 16 + c / 4) :: (c % 4 * 64 + d) :: b64Bytes rest
  | [a, b] => [a * 4 + b / 16]
  | [a, b, c] => [a * 4 + b / 16, b % 16 * 16 + c / 4]
  | _ => []

/-- Model of `atob`, producing the byte values of the binary string. -/
def atob (s : String) : Option (List Nat) :=
  let cs := s.data.filter (fun c => !isB64Ws c)
  let cs := if cs.length % 4 == 0 then stripTrailingEq cs else cs
  if cs.length % 4 == 1 then none
  else (cs.mapM b64Val).map b64Bytes

/-! ## `JSON.parse`: the platform JSON parser

The input is the binary string produced by `atob`, represented as its list
of code units (each `< 256`).  Numbers keep their lexeme instead of a
numeric value: no code path in `auth.ts` observes a JSON number's value,
only its type, so the model never needs floating point. -/

/-- Parsed JSON values.  Strings (and object keys) are lists of UTF-16
code units, exactly as JavaScript represents them. -/
inductive JsValue where
  | jnull
  | jbool (b : Bool)
  | jnum (lexeme : List Nat)
  | jstr (units : List Nat)
  | jarr (items : List JsValue)
  | jobj (fields : List (List Nat × JsValue))

/-- JSON insignificant whitespace. -/
def jsonWs (u : Nat) : Bool := u == 32 || u == 9 || u == 10 || u == 13

/-- Skip JSON whitespace. -/
def skipWs (l : List Nat) : List Nat := l.dropWhile jsonWs

/-- JSON digit test on a code unit. -/
def isJDigit (u : Nat) : Bool := decide (48 ≤ u ∧ u ≤ 57)

/-- Hexadecimal value of a code unit. -/
def hexVal (u : Nat) : Option Nat :=
  if 48 ≤ u ∧ u ≤ 57 then some (u - 48)
  else if 65 ≤ u ∧ u ≤ 70 then some (u - 55)
  else if 97 ≤ u ∧ u ≤ 102 then some (u - 87)
  else none

/-- Parse four hex digits of a `\uXXXX` escape. -/
def parseHex4 : List Nat → Option (Nat × List Nat)
  | a :: b :: c :: d :: rest => do
      let x ← hexVal a
      let y ← hexVal b
      let z ← hexVal c
      let w ← hexVal d
      pure (((x * 16 + y) * 16 + z) * 16 + w, rest)
  | _ => none

/-- Parse the body of a JSON string after the opening quote, returning its
code units and the input after the closing quote. -/
def parseJStr : Nat → List Nat → Option (List Nat × List Nat)
  | 0, _ => none
  | _, [] => none
  | f + 1, u :: rest =>
    if u == 34 then some ([], rest)
    else if u == 92 then
      match rest with
      | [] => none
      | e :: rest2 =>
        if e == 34 || e == 92 || e == 47 then
          (parseJStr f rest2).map (fun p => (e :: p.1, p.2))
        else if e == 98 then (parseJStr f rest2).map (fun p => (8 :: p.1, p.2))
        else if e == 102 then (parseJStr f rest2).map (fun p => (12 :: p.1, p.2))
        else if e == 110 then (parseJStr f rest2).map (fun p => (10 :: p.1, p.2))
        else if e == 114 then (parseJStr f rest2).map (fun p => (13 :: p.1, p.2))
        else if e == 116 then (parseJStr f rest2).map (fun p => (9 :: p.1, p.2))
        else if e == 117 then
          match parseHex4 rest2 with
          | none => none
          | some (cp, rest3) => (parseJStr f rest3).map (fun p => (cp :: p.1, p.2))
        else none
    else if u < 32 then none
    else (parseJStr f rest).map (fun p => (u :: p.1, p.2))

/-- The exponent part of a JSON number after `e` or `E`. -/
def parseJNumExp (pre : List Nat) (e : Nat) (r : List Nat) : Option (List Nat × List Nat) :=
  let (sgn, r1) :=
    match r with
    | 43 :: r0 => ([43], r0)
    | 45 :: r0 => ([45], r0)
    | _ => (([] : List Nat), r)
  let ds := r1.takeWhile isJDigit
  if ds = [] then none
  else some (pre ++ [e] ++ sgn ++ ds, r1.dropWhile isJDigit)

/-- Optional fraction and exponent of a JSON number after the integer part. -/
def parseJNumTail (intPart : List Nat) (r : List Nat) : Option (List Nat × List Nat) :=
  let (frac, r1) :=
    match r with
    | 46 :: r0 =>
      if (r0.takeWhile isJDigit) = [] then ([46], r0)
      else (46 :: r0.takeWhile isJDigit, r0.dropWhile isJDigit)
    | _ => (([] : List Nat), r)
  if frac = [46] then none
  else
    match r1 with
    | 101 :: r2 => parseJNumExp (intPart ++ frac) 101 r2
    | 69 :: r2 => parseJNumExp (intPart ++ frac) 69 r2
    | _ => some (intPart ++ frac, r1)

/-- Parse a JSON number lexeme: `-? (0 | [1-9][0-9]*) frac? exp?`. -/
def parseJNum (l : List Nat) : Option (List Nat × List Nat) :=
  let (neg, l1) :=
    match l with
    | 45 :: r => ([45], r)
    | _ => (([] : List Nat), l)
  match l1 with
  | [] => none
  | u :: r =>
    if u == 48 then parseJNumTail (neg ++ [48]) r
    else if isJDigit u then
      parseJNumTail (neg ++ [u] ++ r.takeWhile isJDigit) (r.dropWhile isJDigit)
    else none

mutual

/-- Parse one JSON value (fuel-driven; every recursive call consumes fuel,
and `2 * length + 4` units always suffice for the initial call). -/
def parseJVal : Nat → List Nat → Option (JsValue × List Nat)
  | 0, _ => none
  | f + 1, l =>
    match skipWs l with
    | [] => none
    | u :: rest =>
      if u == 110 then
        match rest with
        | 117 :: 108 :: 108 :: r => some (.jnull, r)
        | _ => none
      else if u == 116 then
        match rest with
        | 114 :: 117 :: 101 :: r => some (.jbool true, r)
        | _ => none
      else if u == 102 then
        match rest with
        | 97 :: 108 :: 115 :: 101 :: r => some (.jbool false, r)
        | _ => none
      else if u == 34 then (parseJStr (f + 1) rest).map (fun p => (.jstr p.1, p.2))
      else if u == 91 then
        match skipWs rest with
        | 93 :: r => some (.jarr [], r)
        | l2 => (parseJArrItems f l2).map (fun p => (.jarr p.1, p.2))
      else if u == 123 then
        match skipWs rest with
        | 125 :: r => some (.jobj [], r)
        | l2 => (parseJObjItems f l2).map (fun p => (.jobj p.1, p.2))
      else if u == 45 || isJDigit u then (parseJNum (u :: rest)).map (fun p => (.jnum p.1, p.2))
      else none

/-- Parse the remaining items of a non-empty JSON array. -/
def parseJArrItems : Nat → List Nat → Option (List JsValue × List Nat)
  | 0, _ => none
  | f + 1, l =>
    match parseJVal f l with
    | none => none
    | some (v, r1) =>
      match skipWs r1 with
      | 44 :: r2 => (parseJArrItems f (skipWs r2)).map (fun p => (v :: p.1, p.2))
      | 93 :: r2 => some ([v], r2)
      | _ => none

/-- Parse the remaining members of a non-empty JSON object. -/
def parseJObjItems : Nat → List Nat → Option (List (List Nat × JsValue) × List Nat)
  | 0, _ => none
  | f + 1, l =>
    match l with
    | 34 :: r0 =>
      match parseJStr (f + 1) r0 with
      | none => none
      | some (key, r1) =>
        match skipWs r1 with
        | 58 :: r2 =>
          match parseJVal f r2 with
          | none => none
          | some (v, r3) =>
            match skipWs r3 with
            | 44 :: r4 =>
              match skipWs r4 with
              | l2 => (parseJObjItems f l2).map (fun p => ((key, v) :: p.1, p.2))
            | 125 :: r4 => some ([(key, v)], r4)
            | _ => none
        | _ => none
    | _ => none

end

/-- Model of `JSON.parse` on a binary string (list of code units):
`none` models the thrown `SyntaxError`. -/
def jsonParse (units : List Nat) : Option JsValue :=
  match parseJVal (2 * units.length + 4) units with
  | some (v, rest) => if skipWs rest = [] then some v else none
  | none => none

/-- UTF-16 code units of a string (how JavaScript compares strings). -/
def utf16Units (s : String) : List Nat :=
  s.data.foldr
    (fun c acc =>
      let n := c.toNat
      if n < 65536 then n :: acc
      else (55296 + (n - 65536) / 1024) :: (56320 + (n - 65536) % 1024) :: acc) []

/-- Property access `v[key]` on a parsed JSON value: `none` is JavaScript
`undefined` (and stands in for the `TypeError` of accessing a property of
`null`, which the caller's `catch` also turns into `false`).  Duplicate
keys: the last occurrence wins, as in `JSON.parse`. -/
def jsObjGet (v : JsValue) (key : List Nat) : Option JsValue :=
  match v with
  | .jobj fields => (fields.reverse.find? (fun p => p.1 == key)).map (·.2)
  | _ => none

/-! ## JavaScript string primitives

`split(".")`, `startsWith`, `substring(7)` and ASCII lowercasing, defined
over character lists so that the kernel can evaluate them.  All inputs
these functions see in `auth.ts` (tokens, header names and values) are
sequences of Basic-Multilingual-Plane characters, for which Lean
characters and JavaScript UTF-16 code units coincide. -/

/-- `String.prototype.split` with the one-character separator `"."`. -/
def splitDotChars (cs : List Char) : List (List Char) :=
  match cs with
  | [] => [[]]
  | c :: rest =>
    let r := splitDotChars rest
    if c == '.' then [] :: r
    else (c :: r.headD []) :: r.tail

/-- `token.split(".")`. -/
def jsSplitDot (s : String) : List String := (splitDotChars s.data).map String.mk

/-- Character-list prefix test. -/
def charsStarts : List Char → List Char → Bool
  | _, [] => true
  | [], _ :: _ => false
  | c :: cs, p :: ps => c == p && charsStarts cs ps

/-- `s.startsWith(p)`. -/
def jsStartsWith (s p : String) : Bool := charsStarts s.data p.data

/-- `s.substring(n)` (for BMP content). -/
def jsSubstringFrom (s : String) (n : Nat) : String := String.mk (s.data.drop n)

/-- ASCII lowercasing of a string (how header names are normalized). -/
def asciiLowerStr (s : String) : String := String.mk (s.data.map asciiLower)

/-! ## `validateTokenAudience` (source lines 26–44)

```ts
export function validateTokenAudience(token, expectedAudience) {
  try {
    const parts = token.split(".");
    if (parts.length === 3) {
      const payload = JSON.parse(atob(parts[1]));
      return payload.aud === expectedAudience ||
        (Array.isArray(payload.aud) && payload.aud.includes(expectedAudience));
    }
    return true; // Non-JWT tokens pass through to Google verification
  } catch { return false; }
}
``` -/

/-- `atob` then `JSON.parse` of a JWT segment; `none` models either call
throwing (caught by the caller). -/
def decodeJwtPayload (seg : String) : Option JsValue :=
  (atob seg).bind jsonParse

/-- The audience comparison on a decoded payload:
`payload.aud === expectedAudience || (Array.isArray(payload.aud) &&
payload.aud.includes(expectedAudience))`. -/
def audMatches (payload : JsValue) (expectedAudience : String) : Bool :=
  let e := utf16Units expectedAudience
  match jsObjGet payload (utf16Units "aud") with
  | some (.jstr u) => u == e
  | some (.jarr xs) =>
    xs.any (fun x =>
      match x with
      | .jstr u => u == e
      | _ => false)
  | _ => false

/-- Embedding of `validateTokenAudience`. -/
def validateTokenAudience (token expectedAudience : String) : Bool :=
  let parts := jsSplitDot token
  if parts.length == 3 then
    match decodeJwtPayload (parts.getD 1 "") with
    | none => false
    | some payload => audMatches payload expectedAudience
  else true

/-! ## Requests, headers, environment, and the provider oracle

`verifyGoogleToken(req, bearerToken?)` reads: the request's headers and
URL; the environment variables `NODE_ENV`, `DEV_AUTH_TOKEN`, `SKIP_AUTH`
(and `GOOGLE_CLIENT_ID`, which only configures the provider client and is
absorbed into the oracle below); the mutable global `mcpDebugToken`; and
the results of at most one `googleClient.verifyIdToken` call and at most
one `fetch` of the Google UserInfo endpoint per invocation.  The two
possible outbound calls are modelled by an oracle fixing their outcomes,
and the returned trace counts how many of each were actually issued. -/

/-- A request as `verifyGoogleToken` observes it: its URL and its header
collection (name/value pairs). -/
structure HttpRequest where
  url : String
  headers : List (String × String)
  deriving DecidableEq, Repr

/-- Fetch `Headers.get`: header names compare ASCII-case-insensitively. -/
def headersGet (hs : List (String × String)) (name : String) : Option String :=
  (hs.find? (fun p => asciiLowerStr p.1 == asciiLowerStr name)).map (·.2)

/-- The environment variables the function reads. -/
structure Env where
  nodeEnv : Option String := none
  devAuthToken : Option String := none
  skipAuth : Option String := none
  googleClientId : Option String := none
  deriving DecidableEq, Repr

/-- JavaScript string truthiness of an optional string (`undefined` and
`""` are falsy). -/
def truthy : Option String → Bool
  | none => false
  | some s => s != ""

/-- Identity-token payload as `ticket.getPayload()` returns it. -/
structure IdPayload where
  sub : String
  exp : Option Nat := none
  email : Option String := none
  name : Option String := none
  picture : Option String := none
  email_verified : Option Bool := none
  hd : Option String := none
  locale : Option String := none
  deriving DecidableEq, Repr

/-- Outcome of the single possible `googleClient.verifyIdToken` call:
either the promise rejects, or it resolves to a ticket whose
`getPayload()` is `undefined` or a payload. -/
inductive IdVerifyResult where
  | throws
  | ok (payload : Option IdPayload)
  deriving DecidableEq, Repr

/-- Profile body of a UserInfo response, as `response.json()` yields it. -/
structure UserInfo where
  id : Option String := none
  email : Option String := none
  name : Option String := none
  picture : Option String := none
  verified_email : Option Bool := none
  locale : Option String := none
  deriving DecidableEq, Repr

/-- Outcome of the single possible UserInfo `fetch`: network rejection, or
an HTTP response with its `ok` flag and its body (`none` when
`response.json()` would throw on unparsable JSON). -/
inductive UserinfoResult where
  | netError
  | resp (ok : Bool) (body : Option UserInfo)
  deriving DecidableEq, Repr

/-- Fixed outcomes of the outbound provider calls for one invocation. -/
structure GoogleOracle where
  idVerify : IdVerifyResult
  userinfo : UserinfoResult
  deriving DecidableEq, Repr

/-- Count of outbound provider calls issued during one invocation. -/
structure Trace where
  idCalls : Nat
  userinfoCalls : Nat
  deriving DecidableEq, Repr

/-- The `extra` record of an `AuthInfo` (absent fields are `undefined`). -/
structure Extra where
  email : Option String := none
  name : Option String := none
  picture : Option String := none
  verified : Option Bool := none
  domain : Option String := none
  locale : Option String := none
  provider : Option String := none
  tokenType : Option String := none
  mcpCompliant : Option String := none
  audience : Option String := none
  deriving DecidableEq, Repr

/-- The `AuthInfo` authorization context returned on success. -/
structure AuthInfo where
  token : String
  scopes : List String
  clientId : Option String
  expiresAt : Option Nat
  extra : Extra
  deriving DecidableEq, Repr

/-- How one invocation of `verifyGoogleToken` ends: the returned promise
either rejects with an escaped exception, or resolves to `undefined` or
to an `AuthInfo`. -/
inductive VerifyOutcome where
  | thrown
  | value (res : Option AuthInfo)
  deriving DecidableEq, Repr

/-- The fixed MCP scope set granted on every successful verification. -/
def mcpScopes : List String := ["read:mcp", "write:mcp", "mcp:read", "mcp:write", "mcp:tools"]

/-! ## `verifyGoogleToken` (source lines 71–350) -/

/-- The ordered header-name list scanned for a bearer credential
(source lines 83–90). -/
def authHeaderNames : List String :=
  ["authorization", "Authorization", "bearer", "Bearer", "x-auth-token", "x-authorization"]

/-- Per-value prefix recognition (source lines 107–115): exactly the two
casings `"Bearer "` and `"bearer "` are recognized; a recognized value is
taken up from `substring(7)`. -/
def stripBearerValue (v : String) : Option String :=
  if jsStartsWith v "Bearer " then some (jsSubstringFrom v 7)
  else if jsStartsWith v "bearer " then some (jsSubstringFrom v 7)
  else none

/-- Token extraction loop (source lines 104–117): the first header in the
list whose present value has a recognized prefix yields the stripped
token; headers whose value has no recognized prefix are skipped. -/
def extractBearerFromHeaders (hs : List (String × String)) : Option String :=
  (authHeaderNames.filterMap (fun h => (headersGet hs h).bind stripBearerValue)).head?

/-- Source lines 103–118: when the `bearerToken` argument is falsy, scan
the headers; the argument keeps its value when no header matches. -/
def extractStage (hs : List (String × String)) (bearerToken : Option String) : Option String :=
  if truthy bearerToken then bearerToken
  else
    match extractBearerFromHeaders hs with
    | some t => some t
    | none => bearerToken

/-- Source lines 121–133: in development mode with no token yet, fall back
to `DEV_AUTH_TOKEN`, then to the injected `globalThis.mcpDebugToken`. -/
def devTokenStage (env : Env) (mcpDebugToken : Option String) (bt : Option String) :
    Option String :=
  if !truthy bt && (env.nodeEnv == some "development") then
    let bt2 := if truthy env.devAuthToken then env.devAuthToken else bt
    if !truthy bt2 && truthy mcpDebugToken then mcpDebugToken else bt2
  else bt

/-- The fixed context returned by the `SKIP_AUTH` development bypass
(source lines 137–147). -/
def devBypassAuthInfo : AuthInfo where
  token := "dev-bypass"
  scopes := mcpScopes
  clientId := some "dev-user"
  expiresAt := none
  extra :=
    { email := some "dev@example.com"
      name := some "Development User"
      mcpCompliant := some "2025-06-18" }

/-- The context built from a verified identity token (source lines
210–228). -/
def buildFromIdToken (t baseUrl : String) (p : IdPayload) : AuthInfo where
  token := t
  scopes := mcpScopes
  clientId := some p.sub
  expiresAt := p.exp
  extra :=
    { email := p.email
      name := p.name
      picture := p.picture
      verified := p.email_verified
      domain := p.hd
      locale := p.locale
      provider := some "google"
      tokenType := some "id_token"
      mcpCompliant := some "2025-06-18"
      audience := some baseUrl }

/-- The context built from a UserInfo profile (source lines 261–278 for
the fallback, 310–327 for the direct access-token path; they differ only
in the `tokenType` tag). -/
def buildFromUserinfo (t baseUrl : String) (ui : UserInfo) (tokenType : String) : AuthInfo where
  token := t
  scopes := mcpScopes
  clientId := ui.id
  expiresAt := none
  extra :=
    { email := ui.email
      name := ui.name
      picture := ui.picture
      verified := ui.verified_email
      locale := ui.locale
      provider := some "google"
      tokenType := some tokenType
      mcpCompliant := some "2025-06-18"
      audience := some baseUrl }

/-- The dispatch on token shape and the two verification strategies
(source lines 167–349, the body of the outer `try`).  All failure paths
inside the `try` — promise rejection of either provider call, the thrown
`Error` on a non-ok fallback response, unparsable response JSON — are
caught by the outer `catch` and become a resolved `undefined`. -/
def classifyAndVerify (oracle : GoogleOracle) (t baseUrl : String) : VerifyOutcome × Trace :=
  if (jsSplitDot t).length == 3 then
    match oracle.idVerify with
    | .ok none => (.value none, ⟨1, 0⟩)
    | .ok (some p) => (.value (some (buildFromIdToken t baseUrl p)), ⟨1, 0⟩)
    | .throws =>
      match oracle.userinfo with
      | .resp true (some ui) =>
        (.value (some (buildFromUserinfo t baseUrl ui "access_token_fallback")), ⟨1, 1⟩)
      | _ => (.value none, ⟨1, 1⟩)
  else if jsStartsWith t "ya29." then
    match oracle.userinfo with
    | .resp true (some ui) =>
      (.value (some (buildFromUserinfo t baseUrl ui "access_token")), ⟨0, 1⟩)
    | _ => (.value none, ⟨0, 1⟩)
  else (.value none, ⟨0, 0⟩)

/-- Embedding of `verifyGoogleToken`.  The stages, in source order:
header extraction (103–118); the development block (121–148) with its
`SKIP_AUTH` early return; the no-token early return (152–155); the
`new URL(req.url).origin` computation (158), which sits *outside* every
`try` and therefore escapes as a rejection when the URL does not parse
(the audience pre-check on line 159 only logs and cannot throw); then the
classification and verification dispatch inside the `try`. -/
def verifyGoogleToken (env : Env) (mcpDebugToken : Option String) (oracle : GoogleOracle)
    (req : HttpRequest) (bearerToken : Option String) : VerifyOutcome × Trace :=
  let bt1 := extractStage req.headers bearerToken
  if !truthy bt1 && (env.nodeEnv == some "development") && (env.skipAuth == some "true") then
    (.value (some devBypassAuthInfo), ⟨0, 0⟩)
  else
    let bt := devTokenStage env mcpDebugToken bt1
    if !truthy bt then (.value none, ⟨0, 0⟩)
    else
      match parseURL req.url with
      | none => (.thrown, ⟨0, 0⟩)
      | some u => classifyAndVerify oracle (bt.getD "") u.origin

/-! ## Spec-side comparison definitions

Two definitions transcribe what the specification *states*, to be compared
with what the code does. -/

/-- The spec's token shapes (§3, §4.2). -/
inductive TokenShape where
  | SignedIdentityToken
  | OpaqueAccessToken
  | Unrecognized
  deriving DecidableEq, Repr

/-- Modelled from the spec: the §4.2 classification rule — three
dot-separated *non-empty* segments give `SignedIdentityToken`; otherwise
the reserved `ya29.` prefix gives `OpaqueAccessToken`; otherwise
`Unrecognized`, which must fail immediately with no network call.  The
code's dispatch (`classifyAndVerify`) checks only the segment count;
this definition exists to compare the two. -/
def specClassify (t : String) : TokenShape :=
  let parts := jsSplitDot t
  if parts.length = 3 ∧ parts.all (fun s => s != "") then .SignedIdentityToken
  else if jsStartsWith t "ya29." then .OpaqueAccessToken
  else .Unrecognized

/-- Modelled from the spec: the §8 criterion for
`validateResourceParameter` — true exactly when both arguments parse and
their scheme, host and port components are identical.  The code compares
serialized WHATWG origins instead, and all non-special-scheme URLs
serialize to the same origin `"null"`. -/
def specResourceOriginsMatch (r s : String) : Bool :=
  match parseURL r, parseURL s with
  | some ur, some us => ur.scheme == us.scheme && ur.host == us.host && ur.port == us.port
  | _, _ => false

/-! ## Observations on the oracle, and concrete fixtures -/

/-- Whether the (at most one) `verifyIdToken` call would succeed with a
payload. -/
def idVerifySucceeded (o : GoogleOracle) : Bool :=
  match o.idVerify with
  | .ok (some _) => true
  | _ => false

/-- Whether the (at most one) UserInfo fetch would succeed with an ok
status and a parsable body. -/
def userinfoSucceeded (o : GoogleOracle) : Bool :=
  match o.userinfo with
  | .resp true (some _) => true
  | _ => false

/-- Production-like environment: no variables set. -/
def emptyEnv : Env := {}

/-- Development environment with the auth bypass switched on. -/
def devEnv : Env := { nodeEnv := some "development", skipAuth := some "true" }

/-- A request with a well-formed URL and no headers. -/
def demoReq : HttpRequest := { url := "https://example.com/mcp", headers := [] }

/-- A request whose URL the WHATWG parser rejects. -/
def badUrlReq : HttpRequest := { url := "nonsense", headers := [] }

/-- Oracle on which both provider strategies fail. -/
def oracleFail : GoogleOracle := { idVerify := .throws, userinfo := .netError }

/-- Oracle on which both provider strategies succeed. -/
def oracleGood : GoogleOracle where
  idVerify := .ok (some { sub := "user-1", email := some "a@b.com" })
  userinfo := .resp true (some { id := some "123", email := some "a@b.com" })

/-! ## Shared lemmas about the pipeline stages -/

theorem truthy_some (t : String) (ht : t ≠ "") : truthy (some t) = true := by
  simp [truthy, ht]

theorem jsSplitDot_ne_empty (t : String) (h : (jsSplitDot t).length = 3) : t ≠ "" := by
  intro he
  subst he
  simp [jsSplitDot, splitDotChars] at h

theorem extractStage_some (hs : List (String × String)) (t : String) (ht : t ≠ "") :
    extractStage hs (some t) = some t := by
  simp [extractStage, truthy_some t ht]

theorem devTokenStage_some (env : Env) (dbg : Option String) (t : String) (ht : t ≠ "") :
    devTokenStage env dbg (some t) = some t := by
  simp [devTokenStage, truthy_some t ht]

/-- With a non-empty token argument and a parsable request URL, the
development block and the no-token return are skipped and the call is the
classification dispatch on the token and the URL's origin. -/
theorem verifyGoogleToken_token (env : Env) (dbg : Option String) (oracle : GoogleOracle)
    (req : HttpRequest) (t : String) (u : URLRec) (ht : t ≠ "")
    (hu : parseURL req.url = some u) :
    verifyGoogleToken env dbg oracle req (some t) = classifyAndVerify oracle t u.origin := by
  simp [verifyGoogleToken, extractStage_some req.headers t ht,
    devTokenStage_some env dbg t ht, truthy_some t ht, hu]

/-- Every branch of the dispatch resolves; nothing in the `try` escapes. -/
theorem classifyAndVerify_resolves (oracle : GoogleOracle) (t baseUrl : String) :
    ∃ r, (classifyAndVerify oracle t baseUrl).1 = VerifyOutcome.value r := by
  rcases oracle with ⟨iv, ui⟩
  rcases iv with _ | ⟨_ | p⟩ <;> rcases ui with _ | ⟨_ | _, _ | b⟩ <;>
    simp only [classifyAndVerify] <;> split <;> (try split) <;> simp

/-! ## Claim C5 -/

/-- Claim C5: for every token string that does not split on `.` into
exactly three segments, `validateTokenAudience` returns `true` for every
expected audience (the explicit non-JWT leniency). -/
theorem nonJWT_audience_permissive (t aud : String)
    (h : (jsSplitDot t).length ≠ 3) : validateTokenAudience t aud = true := by
  simp [validateTokenAudience, h]

/-- Witness for C5 at the concrete non-JWT token `"ya29.token"`. -/
theorem nonJWT_audience_permissive_witness :
    validateTokenAudience "ya29.token" "https://a.com" = true :=
  nonJWT_audience_permissive "ya29.token" "https://a.com" (by decide)

/-! ## Claim C10 -/

/-- Claim C10: a token with exactly three dot-separated segments whose
middle segment does not decode (base64, then JSON) is rejected —
`validateTokenAudience` returns `false`, never the non-JWT `true`. -/
theorem jwt_undecodable_payload_rejected (t aud : String)
    (h3 : (jsSplitDot t).length = 3)
    (hbad : (decodeJwtPayload ((jsSplitDot t).getD 1 "")).isNone = true) :
    validateTokenAudience t aud = false := by
  rw [Option.isNone_iff_eq_none] at hbad
  have h1 : 1 < (jsSplitDot t).length := by omega
  rw [List.getD_eq_getElem _ _ h1] at hbad
  simp [validateTokenAudience, h3, hbad]

/-- Witness for C10 at `"a.!.c"`, whose middle segment `atob` rejects. -/
theorem jwt_undecodable_payload_rejected_witness :
    validateTokenAudience "a.!.c" "https://a.com" = false :=
  jwt_undecodable_payload_rejected "a.!.c" "https://a.com" (by decide) (by decide)

/-! ## Claim C6 -/

/-- Claim C6: `verifyPKCE` returns `true` exactly when the challenge
equals the unpadded base64url encoding of the SHA-256 digest of the
verifier — including on the empty-string verifier, checked here against
the published digest of the empty message. -/
theorem verifyPKCE_iff_hash_equality :
    (∀ c v, verifyPKCE c v = true ↔ c = base64urlNoPad (sha256 (utf8Encode v))) ∧
    verifyPKCE "47DEQpj8HBSa-_TImW-5JCeuQeRkm5NMpJWZG3hSuFU" "" = true := by
  refine ⟨fun c v => ?_, by decide⟩
  simp [verifyPKCE]

/-! ## Claim C7 -/

/-- Counterexample to claim C7: the code compares serialized WHATWG
origins, and every non-special scheme serializes to the origin `"null"`;
two URLs differing in scheme and host are therefore accepted, although
the claim's scheme+host+port criterion rejects them. -/
theorem opaque_origins_collapse :
    validateResourceParameter "foo://a" "bar://b" = true ∧
    specResourceOriginsMatch "foo://a" "bar://b" = false := by decide

/-- Claim C7 as amended: `validateResourceParameter` returns `true` iff
both arguments parse as URLs and their *serialized WHATWG origins* are
equal (for the special schemes this is the scheme+host+port tuple; all
non-special schemes share the opaque origin `"null"`); it returns `false`
whenever either argument is malformed.  The spec's two examples hold. -/
theorem validateResourceParameter_origin_equality :
    (∀ r s, validateResourceParameter r s = true ↔
      ∃ ur us, parseURL r = some ur ∧ parseURL s = some us ∧ ur.origin = us.origin) ∧
    validateResourceParameter "https://api.example.com/x" "https://api.example.com" = true ∧
    validateResourceParameter "https://evil.com" "https://api.example.com" = false := by
  refine ⟨fun r s => ?_, by decide, by decide⟩
  unfold validateResourceParameter
  rcases hr : parseURL r with _ | ur <;> rcases hs : parseURL s with _ | us <;> simp [hr, hs]

/-! ## Claim C8 -/

/-- Claim C8: header extraction follows the fixed header-name order — when
both the `authorization` and the `x-auth-token` headers carry
bearer-prefixed values, the extracted token comes from `authorization`. -/
theorem authorization_header_wins (hs : List (String × String)) (va wa : String)
    (ha : headersGet hs "authorization" = some va)
    (hva : (jsStartsWith va "Bearer " || jsStartsWith va "bearer ") = true)
    (_hx : headersGet hs "x-auth-token" = some wa)
    (_hwa : (jsStartsWith wa "Bearer " || jsStartsWith wa "bearer ") = true) :
    extractBearerFromHeaders hs = some (jsSubstringFrom va 7) := by
  have hstrip : stripBearerValue va = some (jsSubstringFrom va 7) := by
    cases hB : jsStartsWith va "Bearer "
    · rw [hB] at hva
      simp at hva
      simp [stripBearerValue, hB, hva]
    · simp [stripBearerValue, hB]
  simp [extractBearerFromHeaders, authHeaderNames, ha, hstrip]

/-- Witness for C8: both headers present, `authorization` wins. -/
theorem authorization_header_wins_witness :
    extractBearerFromHeaders [("authorization", "Bearer abc"), ("x-auth-token", "bearer zzz")] =
      some "abc" := by
  have h := authorization_header_wins
    [("authorization", "Bearer abc"), ("x-auth-token", "bearer zzz")]
    "Bearer abc" "bearer zzz" (by decide) (by decide) (by decide) (by decide)
  rw [h]
  decide

/-! ## Claim C9 -/

/-- Counterexample to claim C9: the prefix match is *not* case-insensitive
— the value `"BEARER abc"` is not recognized, so no token is extracted
from it, where the claim requires the stripped token `"abc"`. -/
theorem uppercase_bearer_value_ignored :
    stripBearerValue "BEARER abc" = none ∧
    extractBearerFromHeaders [("authorization", "BEARER abc")] = none := by decide

/-- Claim C9 as amended: only the two exact casings `"Bearer "` and
`"bearer "` are recognized as prefixes of a header value; a recognized
value is stripped of its 7-character prefix and the remainder is the
token, and a value with neither exact prefix yields no token. -/
theorem bearer_prefix_exact_casings (v : String) :
    ((jsStartsWith v "Bearer " || jsStartsWith v "bearer ") = true →
      stripBearerValue v = some (jsSubstringFrom v 7)) ∧
    ((jsStartsWith v "Bearer " || jsStartsWith v "bearer ") = false →
      stripBearerValue v = none) := by
  constructor
  · intro h
    cases hB : jsStartsWith v "Bearer "
    · rw [hB] at h
      simp at h
      simp [stripBearerValue, hB, h]
    · simp [stripBearerValue, hB]
  · intro h
    simp only [Bool.or_eq_false_iff] at h
    simp [stripBearerValue, h.1, h.2]

/-- Witness for C9 (amended) at the lowercase-prefixed value. -/
theorem bearer_prefix_exact_casings_witness :
    stripBearerValue "bearer tok" = some (jsSubstringFrom "bearer tok" 7) :=
  (bearer_prefix_exact_casings "bearer tok").1 (by decide)

/-! ## Branch lemmas for the dispatch -/

theorem classifyAndVerify_jwt_idCalls (oracle : GoogleOracle) (t baseUrl : String)
    (h3 : (jsSplitDot t).length = 3) :
    (classifyAndVerify oracle t baseUrl).2.idCalls = 1 := by
  unfold classifyAndVerify
  rw [if_pos (show ((jsSplitDot t).length == 3) = true by simp [h3])]
  rcases hiv : oracle.idVerify with _ | ⟨_ | p⟩ <;>
    rcases hui : oracle.userinfo with _ | ⟨_ | _, _ | b⟩ <;> simp [hiv, hui]

theorem classifyAndVerify_jwt_throws (oracle : GoogleOracle) (t baseUrl : String)
    (h3 : (jsSplitDot t).length = 3) (hid : oracle.idVerify = IdVerifyResult.throws) :
    (classifyAndVerify oracle t baseUrl).2 = ⟨1, 1⟩ ∧
    ((classifyAndVerify oracle t baseUrl).1 = VerifyOutcome.value none ↔
      userinfoSucceeded oracle = false) := by
  unfold classifyAndVerify
  rw [if_pos (show ((jsSplitDot t).length == 3) = true by simp [h3]), hid]
  rcases hui : oracle.userinfo with _ | ⟨_ | _, _ | b⟩ <;>
    simp [hui, userinfoSucceeded]

theorem classifyAndVerify_ya29 (oracle : GoogleOracle) (t baseUrl : String)
    (h3 : (jsSplitDot t).length ≠ 3) (hy : jsStartsWith t "ya29." = true) :
    (classifyAndVerify oracle t baseUrl).2 = ⟨0, 1⟩ := by
  unfold classifyAndVerify
  rw [if_neg (show ¬ ((jsSplitDot t).length == 3) = true by simp [h3]), if_pos hy]
  rcases hui : oracle.userinfo with _ | ⟨_ | _, _ | b⟩ <;> simp [hui]

theorem classifyAndVerify_unrecognized (oracle : GoogleOracle) (t baseUrl : String)
    (h3 : (jsSplitDot t).length ≠ 3) (hy : jsStartsWith t "ya29." = false) :
    classifyAndVerify oracle t baseUrl = (VerifyOutcome.value none, ⟨0, 0⟩) := by
  unfold classifyAndVerify
  rw [if_neg (show ¬ ((jsSplitDot t).length == 3) = true by simp [h3]),
    if_neg (show ¬ jsStartsWith t "ya29." = true by simp [hy])]

/-! ## Claim C2 -/

/-- Counterexample to claim C2: `"a..b"` has an empty middle segment, so
the spec's classifier calls it `Unrecognized` and requires an immediate
failure with no network call; the code checks only the segment count,
takes the signed-token path, and issues both provider calls. -/
theorem unrecognized_by_spec_still_contacts_network :
    specClassify "a..b" = TokenShape.Unrecognized ∧
    (verifyGoogleToken emptyEnv none oracleFail demoReq (some "a..b")).2 = ⟨1, 1⟩ := by
  decide

/-- Claim C2 as amended: classification looks only at the segment *count*
of `split(".")` (empty segments allowed).  Exactly three segments take
the signed-token path (the id-token verification is issued); otherwise a
`ya29.` prefix takes the userinfo path (one userinfo call, no id-token
call); otherwise the call fails immediately with an absent result and no
network call. -/
theorem dispatch_by_segment_count (env : Env) (dbg : Option String) (oracle : GoogleOracle)
    (req : HttpRequest) (t : String) (u : URLRec) (ht : t ≠ "")
    (hu : parseURL req.url = some u) :
    ((jsSplitDot t).length = 3 →
      (verifyGoogleToken env dbg oracle req (some t)).2.idCalls = 1) ∧
    ((jsSplitDot t).length ≠ 3 → jsStartsWith t "ya29." = true →
      (verifyGoogleToken env dbg oracle req (some t)).2 = ⟨0, 1⟩) ∧
    ((jsSplitDot t).length ≠ 3 → jsStartsWith t "ya29." = false →
      verifyGoogleToken env dbg oracle req (some t) = (VerifyOutcome.value none, ⟨0, 0⟩)) := by
  rw [verifyGoogleToken_token env dbg oracle req t u ht hu]
  exact ⟨fun h3 => classifyAndVerify_jwt_idCalls oracle t u.origin h3,
    fun h3 hy => classifyAndVerify_ya29 oracle t u.origin h3 hy,
    fun h3 hy => classifyAndVerify_unrecognized oracle t u.origin h3 hy⟩

/-- Witness for C2 (amended) on the opaque-token branch. -/
theorem dispatch_by_segment_count_witness :
    (verifyGoogleToken emptyEnv none oracleFail demoReq (some "ya29.tok")).2 = ⟨0, 1⟩ :=
  (dispatch_by_segment_count emptyEnv none oracleFail demoReq "ya29.tok"
    ⟨"https", "example.com", none⟩ (by decide) (by decide)).2.1 (by decide) (by decide)

/-! ## Claim C4 -/

/-- Claim C4: when the id-token verification of a three-segment token
fails (the provider call rejects), the userinfo fallback is attempted
exactly once, and the result is absent exactly when that single fallback
attempt also fails. -/
theorem jwt_failure_triggers_single_fallback (env : Env) (dbg : Option String)
    (oracle : GoogleOracle) (req : HttpRequest) (t : String) (u : URLRec)
    (h3 : (jsSplitDot t).length = 3)
    (hid : oracle.idVerify = IdVerifyResult.throws)
    (hu : parseURL req.url = some u) :
    (verifyGoogleToken env dbg oracle req (some t)).2.userinfoCalls = 1 ∧
    ((verifyGoogleToken env dbg oracle req (some t)).1 = VerifyOutcome.value none ↔
      userinfoSucceeded oracle = false) := by
  rw [verifyGoogleToken_token env dbg oracle req t u (jsSplitDot_ne_empty t h3) hu]
  obtain ⟨h1, h2⟩ := classifyAndVerify_jwt_throws oracle t u.origin h3 hid
  exact ⟨by rw [h1], h2⟩

/-- Witness for C4 with a failing id-token verification and a failing
fallback. -/
theorem jwt_failure_triggers_single_fallback_witness :
    (verifyGoogleToken emptyEnv none oracleFail demoReq (some "a.b.c")).2.userinfoCalls = 1 ∧
    ((verifyGoogleToken emptyEnv none oracleFail demoReq (some "a.b.c")).1 =
        VerifyOutcome.value none ↔
      userinfoSucceeded oracleFail = false) :=
  jwt_failure_triggers_single_fallback emptyEnv none oracleFail demoReq "a.b.c"
    ⟨"https", "example.com", none⟩ (by decide) (by decide) (by decide)

/-! ## Claim C3 -/

/-- Counterexample to claim C3: `new URL(req.url)` on line 158 sits
outside every `try`, so with a token present and an unparsable request
URL the rejection escapes to the caller instead of resolving to an
absent result. -/
theorem malformed_request_url_escapes :
    (verifyGoogleToken emptyEnv none oracleFail badUrlReq (some "tok")).1 =
      VerifyOutcome.thrown := by decide

/-- Claim C3 as amended: for every input whose request URL parses, no
exception escapes — the call resolves, every failure path to an absent
result.  (A genuine platform `Request` always carries a parsed, therefore
parsable, URL; the escape needs a malformed `req.url` string.) -/
theorem no_exception_when_url_parses (env : Env) (dbg : Option String)
    (oracle : GoogleOracle) (req : HttpRequest) (bt : Option String)
    (h : (parseURL req.url).isSome = true) :
    ∃ r, (verifyGoogleToken env dbg oracle req bt).1 = VerifyOutcome.value r := by
  have key : (verifyGoogleToken env dbg oracle req bt).1 ≠ VerifyOutcome.thrown := by
    simp only [verifyGoogleToken]
    split
    · simp
    · split
      · simp
      · split
        · next heq => rw [heq] at h; simp at h
        · next u heq =>
          obtain ⟨r, hr⟩ := classifyAndVerify_resolves oracle
            ((devTokenStage env dbg (extractStage req.headers bt)).getD "") u.origin
          simp [hr]
  rcases hv : (verifyGoogleToken env dbg oracle req bt).1 with _ | r
  · exact absurd hv key
  · exact ⟨r, rfl⟩

/-- Witness for C3 (amended) at a parsable request URL with both provider
calls failing. -/
theorem no_exception_when_url_parses_witness :
    ∃ r, (verifyGoogleToken emptyEnv none oracleFail demoReq (some "tok")).1 =
      VerifyOutcome.value r :=
  no_exception_when_url_parses emptyEnv none oracleFail demoReq (some "tok") (by decide)

/-! ## Claim C1 -/

/-- Counterexample to claim C1: with `NODE_ENV=development` and
`SKIP_AUTH=true` and no credential anywhere, the function returns the
fixed development-bypass context while issuing zero provider calls and
with an oracle on which both strategies would fail — a context without
any successful provider verification. -/
theorem skipAuth_bypass_creates_context_without_provider :
    (verifyGoogleToken devEnv none oracleFail demoReq none).1 =
      VerifyOutcome.value (some devBypassAuthInfo) ∧
    (verifyGoogleToken devEnv none oracleFail demoReq none).2 = ⟨0, 0⟩ ∧
    idVerifySucceeded oracleFail = false ∧ userinfoSucceeded oracleFail = false := by
  decide

/-- Claim C1 as amended: every produced context either is the fixed
`SKIP_AUTH` development-bypass context or was preceded by a successful
provider verification (id-token verification with a payload, or an ok
userinfo response with a parsable body). -/
theorem authInfo_requires_provider_success_or_bypass (env : Env) (dbg : Option String)
    (oracle : GoogleOracle) (req : HttpRequest) (bt : Option String) (ai : AuthInfo)
    (h : (verifyGoogleToken env dbg oracle req bt).1 = VerifyOutcome.value (some ai)) :
    ai = devBypassAuthInfo ∨ idVerifySucceeded oracle = true ∨
      userinfoSucceeded oracle = true := by
  simp only [verifyGoogleToken] at h
  split at h
  · left
    simp at h
    exact h.symm
  · split at h
    · simp at h
    · split at h
      · simp at h
      · next u heq =>
        simp only [classifyAndVerify] at h
        split at h
        · split at h
          · simp at h
          · next p hiv =>
            right; left
            simp [idVerifySucceeded, hiv]
          · next hiv =>
            split at h
            · next ui hui =>
              right; right
              simp [userinfoSucceeded, hui]
            · simp at h
        · split at h
          · split at h
            · next ui hui =>
              right; right
              simp [userinfoSucceeded, hui]
            · simp at h
          · simp at h

/-- Witness for C1 (amended): a successful id-token verification. -/
theorem authInfo_requires_provider_success_or_bypass_witness :
    buildFromIdToken "a.b.c" "https://example.com"
        { sub := "user-1", email := some "a@b.com" } = devBypassAuthInfo ∨
    idVerifySucceeded oracleGood = true ∨ userinfoSucceeded oracleGood = true :=
  authInfo_requires_provider_success_or_bypass emptyEnv none oracleGood demoReq
    (some "a.b.c")
    (buildFromIdToken "a.b.c" "https://example.com"
      { sub := "user-1", email := some "a@b.com" })
    (by decide)

end McpAuth
